import Mathlib

/-!
Verification development for the Godview weather visualization engine.

The definitions below are a shallow embedding of the engine source:

* `weather.interface.js` — the client-side zoom classifier, layer lifecycle
  manager, transition engine and prefetch scheduler
  (class `WeatherInterface`);
* the server-side weather service (`WeatherService`) — TTL cache and the
  data normalizers.

Modelling conventions:

* JavaScript numbers are embedded as exact rationals; IEEE-754 rounding is
  abstracted away.
* JavaScript exceptions are embedded as `Except` values or as an explicit
  error channel next to the mutated state.
* Host facilities that are not part of the program logic are abstracted
  into parameters: `Date.now()` becomes a `now` argument, the host date
  parser `new Date(string).getTime()` becomes a `jsDate` argument, and
  `Math.random`-based id synthesis becomes a `freshId` argument.
-/

namespace Godview

/-! ## Zoom category classifier (weather.interface.js) -/

/-- The three zoom bands of the multi-scale visualization. -/
inductive ZoomCategory where
  | GLOBAL
  | REGIONAL
  | LOCAL
deriving DecidableEq, Repr

open ZoomCategory

/-- One row of the static zoom-band table. -/
structure ZoomBand where
  min : ℚ
  max : ℚ
deriving DecidableEq, Repr

/-- The `zoomLevels` table (weather.interface.js, lines 24-28). -/
def zoomLevels : ZoomCategory → ZoomBand
  | GLOBAL => ⟨0, 3⟩
  | REGIONAL => ⟨3, 8⟩
  | LOCAL => ⟨8, 22⟩

/-- `getZoomCategory` (weather.interface.js, lines 307-311): first checks
the LOCAL lower bound, then the REGIONAL lower bound, and defaults to
GLOBAL. -/
def getZoomCategory (zoom : ℚ) : ZoomCategory :=
  if (zoomLevels LOCAL).min ≤ zoom then LOCAL
  else if (zoomLevels REGIONAL).min ≤ zoom then REGIONAL
  else GLOBAL

/-- Numeric rank of how local a category is; GLOBAL is the least local. -/
def localness : ZoomCategory → Nat
  | GLOBAL => 0
  | REGIONAL => 1
  | LOCAL => 2

/-- Membership of a zoom value in the band of a category, read off the
`zoomLevels` table; the LOCAL band is closed at its top end 22, the other
two bands are half-open. -/
def inBand (z : ℚ) (c : ZoomCategory) : Prop :=
  (zoomLevels c).min ≤ z ∧
    (if c = LOCAL then z ≤ (zoomLevels c).max else z < (zoomLevels c).max)

instance (z : ℚ) (c : ZoomCategory) : Decidable (inBand z c) := by
  unfold inBand
  infer_instance

/-- C1: the zoom classifier returns LOCAL for zoom at least 8, REGIONAL on
[3, 8), GLOBAL below 3; it is total (a total Lean function), monotone in
localness, the three bands partition [0, 22] with no gap or overlap, and
the five scenario values classify as stated. -/
theorem C1_zoom_classifier :
    (∀ z : ℚ, 8 ≤ z → getZoomCategory z = LOCAL) ∧
    (∀ z : ℚ, 3 ≤ z → z < 8 → getZoomCategory z = REGIONAL) ∧
    (∀ z : ℚ, z < 3 → getZoomCategory z = GLOBAL) ∧
    (∀ z w : ℚ, z ≤ w →
      localness (getZoomCategory z) ≤ localness (getZoomCategory w)) ∧
    (∀ z : ℚ, 0 ≤ z → z ≤ 22 → ∃! c : ZoomCategory, inBand z c) ∧
    getZoomCategory 2 = GLOBAL ∧ getZoomCategory 3 = REGIONAL ∧
    getZoomCategory (79/10) = REGIONAL ∧ getZoomCategory 8 = LOCAL ∧
    getZoomCategory 15 = LOCAL := by
  have hcat : ∀ z : ℚ, getZoomCategory z =
      if (8:ℚ) ≤ z then LOCAL else if (3:ℚ) ≤ z then REGIONAL else GLOBAL := by
    intro z
    simp [getZoomCategory, zoomLevels]
  refine ⟨?_, ?_, ?_, ?_, ?_, ?_, ?_, ?_, ?_, ?_⟩
  · intro z hz
    rw [hcat]
    simp [hz]
  · intro z h3 h8
    rw [hcat]
    rw [if_neg (by linarith), if_pos h3]
  · intro z h3
    rw [hcat]
    rw [if_neg (by linarith), if_neg (by linarith)]
  · intro z w hzw
    rw [hcat, hcat]
    split_ifs <;> simp [localness] <;> linarith
  · intro z h0 h22
    refine ⟨getZoomCategory z, ?_, ?_⟩
    · rw [hcat]
      split_ifs with h8 h3
      · exact ⟨by simpa [zoomLevels] using h8, by simp [zoomLevels, h22]⟩
      · refine ⟨by simpa [zoomLevels] using h3, ?_⟩
        simp only [zoomLevels, reduceCtorEq, if_false]
        linarith
      · refine ⟨by simpa [zoomLevels] using h0, ?_⟩
        simp only [zoomLevels, reduceCtorEq, if_false]
        linarith
    · intro c hc
      rw [hcat]
      rcases hc with ⟨hlo, hhi⟩
      cases c with
      | GLOBAL =>
        simp only [zoomLevels, reduceCtorEq, if_false] at hhi
        rw [if_neg (by linarith), if_neg (by linarith)]
      | REGIONAL =>
        simp only [zoomLevels, reduceCtorEq, if_false] at hhi
        simp only [zoomLevels] at hlo
        rw [if_neg (by linarith), if_pos hlo]
      | LOCAL =>
        simp only [zoomLevels] at hlo
        rw [if_pos hlo]
  · rw [hcat]; norm_num
  · rw [hcat]; norm_num
  · rw [hcat]; norm_num
  · rw [hcat]; norm_num
  · rw [hcat]; norm_num

/-- Concrete instantiation of the quantified parts of `C1_zoom_classifier`. -/
theorem C1_zoom_classifier_witness :
    getZoomCategory 9 = LOCAL ∧ getZoomCategory 5 = REGIONAL ∧
    getZoomCategory 1 = GLOBAL ∧
    localness (getZoomCategory 2) ≤ localness (getZoomCategory 10) ∧
    (∃! c : ZoomCategory, inBand 4 c) :=
  ⟨C1_zoom_classifier.1 9 (by norm_num),
   C1_zoom_classifier.2.1 5 (by norm_num) (by norm_num),
   C1_zoom_classifier.2.2.1 1 (by norm_num),
   C1_zoom_classifier.2.2.2.1 2 10 (by norm_num),
   C1_zoom_classifier.2.2.2.2.1 4 (by norm_num) (by norm_num)⟩

/-! ## Transition engine opacity expressions (weather.interface.js) -/

/-- A two-stop `interpolate linear zoom` raster-opacity expression, as
produced by `createTransitionLayer` (weather.interface.js, lines
2460-2494): stop `z1` maps to value `v1` and stop `z2` to value `v2`. -/
structure Interp2 where
  z1 : ℚ
  v1 : ℚ
  z2 : ℚ
  v2 : ℚ
deriving DecidableEq, Repr

/-- Evaluation of a two-stop linear zoom interpolation at a live zoom
value, following the map renderer semantics: clamped to the boundary
values outside the stop range, linear in between. -/
def Interp2.eval (e : Interp2) (z : ℚ) : ℚ :=
  if z ≤ e.z1 then e.v1
  else if e.z2 ≤ z then e.v2
  else e.v1 + (e.v2 - e.v1) * (z - e.z1) / (e.z2 - e.z1)

/-- The pair of opacity expressions built by `createTransitionLayer`
(weather.interface.js, lines 2456-2494): with
`fromZoom = zoomLevels[fromZoomCategory].max` and
`toZoom = zoomLevels[toZoomCategory].min`, the layer sourced from the old
category fades 1 to 0 over [fromZoom - 0.5, toZoom + 0.5] and the layer
sourced from the new category fades 0 to 1 over the same stops. -/
def transitionOpacities (fromZoomCategory toZoomCategory : ZoomCategory) :
    Interp2 × Interp2 :=
  let fromZoom := (zoomLevels fromZoomCategory).max
  let toZoom := (zoomLevels toZoomCategory).min
  (⟨fromZoom - 1/2, 1, toZoom + 1/2, 0⟩, ⟨fromZoom - 1/2, 0, toZoom + 1/2, 1⟩)

/-- C4: for every category change the two transient sublayers carry
opacity expressions over the zoom stops maxZoom(from) - 0.5 and
minZoom(to) + 0.5, the from-sourced one fading 1 to 0 and the to-sourced
one 0 to 1; whenever those stops are in ascending order the two
opacities sum to exactly 1 at every zoom in the range; and for
GLOBAL to REGIONAL (range [2.5, 3.5]) the sum is 1 throughout with values
(1, 0) and (0, 1) at the two ends. -/
theorem C4_transition_crossfade :
    (∀ a b : ZoomCategory,
      (transitionOpacities a b).1 =
        ⟨(zoomLevels a).max - 1/2, 1, (zoomLevels b).min + 1/2, 0⟩ ∧
      (transitionOpacities a b).2 =
        ⟨(zoomLevels a).max - 1/2, 0, (zoomLevels b).min + 1/2, 1⟩) ∧
    (∀ a b : ZoomCategory,
      (zoomLevels a).max - 1/2 < (zoomLevels b).min + 1/2 →
      ∀ z : ℚ, (zoomLevels a).max - 1/2 ≤ z → z ≤ (zoomLevels b).min + 1/2 →
        ((transitionOpacities a b).1.eval z + (transitionOpacities a b).2.eval z
          = 1)) ∧
    (∀ z : ℚ, 5/2 ≤ z → z ≤ 7/2 →
      (transitionOpacities GLOBAL REGIONAL).1.eval z
        + (transitionOpacities GLOBAL REGIONAL).2.eval z = 1) ∧
    (transitionOpacities GLOBAL REGIONAL).1.eval (5/2) = 1 ∧
    (transitionOpacities GLOBAL REGIONAL).2.eval (5/2) = 0 ∧
    (transitionOpacities GLOBAL REGIONAL).1.eval (7/2) = 0 ∧
    (transitionOpacities GLOBAL REGIONAL).2.eval (7/2) = 1 := by
  have hsum : ∀ a b : ZoomCategory,
      (zoomLevels a).max - 1/2 < (zoomLevels b).min + 1/2 →
      ∀ z : ℚ, (zoomLevels a).max - 1/2 ≤ z → z ≤ (zoomLevels b).min + 1/2 →
        ((transitionOpacities a b).1.eval z + (transitionOpacities a b).2.eval z
          = 1) := by
    intro a b hlt z _ _
    simp only [transitionOpacities, Interp2.eval]
    split_ifs with h1 h2
    · norm_num
    · norm_num
    · have hne : (zoomLevels b).min + 1/2 - ((zoomLevels a).max - 1/2) ≠ 0 := by
        intro h
        rw [sub_eq_zero] at h
        exact absurd h.symm (ne_of_lt hlt)
      field_simp
      ring
  refine ⟨fun a b => ⟨rfl, rfl⟩, hsum, ?_, ?_, ?_, ?_, ?_⟩
  · intro z hz1 hz2
    refine hsum GLOBAL REGIONAL (by norm_num [zoomLevels]) z ?_ ?_
    · rw [show zoomLevels GLOBAL = ⟨0, 3⟩ from rfl]
      norm_num
      linarith
    · rw [show zoomLevels REGIONAL = ⟨3, 8⟩ from rfl]
      norm_num
      linarith
  · norm_num [transitionOpacities, Interp2.eval, zoomLevels]
  · norm_num [transitionOpacities, Interp2.eval, zoomLevels]
  · norm_num [transitionOpacities, Interp2.eval, zoomLevels]
  · norm_num [transitionOpacities, Interp2.eval, zoomLevels]

/-- Concrete instantiation of the quantified parts of
`C4_transition_crossfade`: the two opacities at the midpoint zoom 3 of the
GLOBAL to REGIONAL crossfade sum to 1. -/
theorem C4_transition_crossfade_witness :
    (transitionOpacities ZoomCategory.GLOBAL ZoomCategory.REGIONAL).1.eval 3
      + (transitionOpacities ZoomCategory.GLOBAL ZoomCategory.REGIONAL).2.eval 3
      = 1 :=
  C4_transition_crossfade.2.2.1 3 (by norm_num) (by norm_num)

/-! ## JavaScript value model for the server-side weather service -/

/-- JavaScript values flowing through the weather service normalizers.
`undefined` models the JavaScript `undefined` produced by a missing property,
which is distinct from JSON `null`. -/
inductive Json where
  | null
  | undefined
  | bool (b : Bool)
  | num (q : ℚ)
  | str (s : String)
  | arr (xs : List Json)
  | obj (kvs : List (String × Json))
deriving Repr

/-- First binding of a key in an association list, as JavaScript property
lookup on a plain object. -/
def assocLookup {α : Type} : List (String × α) → String → Option α
  | [], _ => none
  | (k, v) :: rest, key => if k = key then some v else assocLookup rest key

/-- JavaScript property update: an existing key keeps its position, a new
key is appended (object insertion order). -/
def assocSet {α : Type} : List (String × α) → String → α → List (String × α)
  | [], k, v => [(k, v)]
  | (k', v') :: rest, k, v =>
      if k' = k then (k, v) :: rest else (k', v') :: assocSet rest k v

/-- JavaScript property access `o.k`: a TypeError on `null`/`undefined`,
the bound value (or `undefined`) on an object, and `undefined` on any
other value. -/
def getField : Json → String → Except String Json
  | .null, k => .error ("TypeError: cannot read " ++ k ++ " of null")
  | .undefined, k => .error ("TypeError: cannot read " ++ k ++ " of undefined")
  | .obj kvs, k => .ok ((assocLookup kvs k).getD .undefined)
  | _, _ => .ok .undefined

/-- JavaScript numeric indexing `o[i]`: a TypeError on `null`/`undefined`,
the element (or `undefined` out of range) on an array. -/
def jsIndex : Json → Nat → Except String Json
  | .null, _ => .error "TypeError: cannot index null"
  | .undefined, _ => .error "TypeError: cannot index undefined"
  | .arr xs, i => .ok ((xs.get? i).getD .undefined)
  | _, _ => .ok .undefined

/-- JavaScript truthiness. -/
def truthy : Json → Bool
  | .null => false
  | .undefined => false
  | .bool b => b
  | .num q => decide (q ≠ 0)
  | .str s => decide (s ≠ "")
  | .arr _ => true
  | .obj _ => true

/-- Calling `.map(f)` on a value: maps over an array, a TypeError on
anything else. -/
def jsMapM {α : Type} (f : Json → Except String α) :
    Json → Except String (List α)
  | .arr xs => xs.mapM f
  | _ => .error "TypeError: map is not a function"

/-- Whether a value is a JavaScript array (`Array.isArray`). -/
def Json.isArr : Json → Bool
  | .arr _ => true
  | _ => false

/-- The upstream epoch-seconds fields are multiplied by 1000
(`data.dt * 1000`); a non-numeric operand yields NaN in JavaScript,
modelled as `none`. -/
def epochToMs : Json → Option ℚ
  | .num q => some (q * 1000)
  | _ => none

/-- `new Date(v).getTime()` for the date values met by the normalizers:
a string is handed to the host date parser `jsDate`, a number is an epoch
already, `null`/`false`/`true` coerce to 0/0/1, anything else is an
invalid date, whose time is NaN (modelled `none`). -/
def jsNewDateMs (jsDate : String → ℚ) : Json → Option ℚ
  | .str s => some (jsDate s)
  | .num q => some q
  | .null => some 0
  | .bool b => some (if b then 1 else 0)
  | _ => none

/-- Abstract injective rendering of a JavaScript number inside a template
literal (used only to build cache keys and synthetic ids). -/
def numStr (q : ℚ) : String := toString q.num ++ "/" ++ toString q.den

/-! ## Server-side TTL cache (NodeCache, part_000 line 8) -/

/-- A stored cache line with its absolute expiry time (ms epoch). -/
structure CacheLine (α : Type) where
  value : α
  expiresAt : ℚ
deriving Repr

/-- Model of the `node-cache` store: a standard TTL in seconds and the
keyed entries. -/
structure NodeCache (α : Type) where
  stdTTL : ℚ
  entries : List (String × CacheLine α)
deriving Repr

/-- `cache.get(k)` at an absolute time: the stored value if the entry has
not expired. -/
def NodeCache.get {α : Type} (c : NodeCache α) (k : String) (now : ℚ) :
    Option α :=
  match assocLookup c.entries k with
  | some line => if now < line.expiresAt then some line.value else none
  | none => none

/-- `cache.set(k, v)` at an absolute time: stores the value with expiry
`now + stdTTL` seconds. -/
def NodeCache.set {α : Type} (c : NodeCache α) (k : String) (v : α)
    (now : ℚ) : NodeCache α :=
  { c with entries := assocSet c.entries k ⟨v, now + c.stdTTL * 1000⟩ }

/-- `new NodeCache(\x7b stdTTL: 1800 \x7d)` — 30 minutes (part_000,
line 8). -/
def weatherCacheStdTTL : ℚ := 1800

/-! ## Current-weather normalizer and fetch (part_000) -/

/-- The `location` block of a normalized current-weather payload. -/
structure WLocation where
  name : Json
  country : Json
  lat : Json
  lon : Json
deriving Repr

/-- The `weather` block of a normalized current-weather payload. `rain`
is present only in the synthesized fallback payload. -/
structure WeatherBlock where
  main : Json
  description : Json
  icon : Json
  temperature : Json
  feels_like : Json
  humidity : Json
  pressure : Json
  wind_speed : Json
  wind_direction : Json
  clouds : Json
  visibility : Json
  rain : Option Json
deriving Repr

/-- A normalized current-weather payload; `ctype` is the payload `type`
field. The epoch fields are `Option` because a non-numeric upstream epoch
multiplies to NaN. -/
structure CurrentWeather where
  ctype : String
  location : WLocation
  weather : WeatherBlock
  timestamp : Option ℚ
  sunrise : Option ℚ
  sunset : Option ℚ
deriving Repr

/-- `normalizeOpenWeatherData` (part_000, lines 418-444): field
extractions in the evaluation order of the JavaScript object literal; a
missing intermediate object raises a TypeError, modelled by the `Except`
error. -/
def normalizeOpenWeatherData (data : Json) : Except String CurrentWeather := do
  let name ← getField data "name"
  let sys ← getField data "sys"
  let country ← getField sys "country"
  let coord ← getField data "coord"
  let lat ← getField coord "lat"
  let lon ← getField coord "lon"
  let weatherArr ← getField data "weather"
  let w0 ← jsIndex weatherArr 0
  let wmain ← getField w0 "main"
  let wdescription ← getField w0 "description"
  let wicon ← getField w0 "icon"
  let mainBlock ← getField data "main"
  let temp ← getField mainBlock "temp"
  let feels ← getField mainBlock "feels_like"
  let humidity ← getField mainBlock "humidity"
  let pressure ← getField mainBlock "pressure"
  let wind ← getField data "wind"
  let windSpeed ← getField wind "speed"
  let windDeg ← getField wind "deg"
  let clouds ← getField data "clouds"
  let cloudsAll ← getField clouds "all"
  let vis ← getField data "visibility"
  let dt ← getField data "dt"
  let sunrise ← getField sys "sunrise"
  let sunset ← getField sys "sunset"
  return { ctype := "current_weather"
           location := ⟨name, country, lat, lon⟩
           weather := ⟨wmain, wdescription, wicon, temp, feels, humidity,
                       pressure, windSpeed, windDeg, cloudsAll, vis, none⟩
           timestamp := epochToMs dt
           sunrise := epochToMs sunrise
           sunset := epochToMs sunset }

/-- `getFakeWeatherData` (part_000, lines 65-95): the deterministic
placeholder payload for the given coordinates; `now` stands for
`Date.now()`. -/
def getFakeWeatherData (now lat lon : ℚ) : CurrentWeather :=
  { ctype := "current_weather"
    location := ⟨.str "Test Location", .str "Test Country", .num lat, .num lon⟩
    weather := ⟨.str "Clear", .str "clear sky", .str "01d", .num 25, .num 26,
                .num 60, .num 1015, .num 5, .num 90, .num 20, .num 10000,
                some (.obj [("1h", .num 0)])⟩
    timestamp := some now
    sunrise := some (now - 21600000)
    sunset := some (now + 21600000) }

/-- The cache fingerprint of a current-weather request
(`current_weather_$lat_$lon`). -/
def currentWeatherKey (lat lon : ℚ) : String :=
  "current_weather_" ++ numStr lat ++ "_" ++ numStr lon

/-- Result of one `getCurrentWeather` call: the returned payload, the
cache afterwards and the number of upstream network calls performed. -/
structure CurrentWeatherResult where
  payload : CurrentWeather
  cache : NodeCache CurrentWeather
  upstreamCalls : ℕ
deriving Repr

/-- `getCurrentWeather` (part_000, lines 27-57): cache check by
fingerprint, otherwise one upstream call (`upstream` is its outcome);
a successful normalization is cached and returned, any failure of the
try-block (network error, non-2xx rejection, or a normalizer TypeError on
a malformed body) falls back to the placeholder. The total return type
mirrors the catch-all `try/catch`: no exception reaches the caller. -/
def getCurrentWeather (cache : NodeCache CurrentWeather) (now : ℚ)
    (upstream : Except String Json) (lat lon : ℚ) : CurrentWeatherResult :=
  let cacheKey := currentWeatherKey lat lon
  match cache.get cacheKey now with
  | some cachedData => ⟨cachedData, cache, 0⟩
  | none =>
    match upstream.bind normalizeOpenWeatherData with
    | .ok normalizedData =>
        ⟨normalizedData, cache.set cacheKey normalizedData now, 1⟩
    | .error _ => ⟨getFakeWeatherData now lat lon, cache, 1⟩

/-- Looking a key up right after setting it finds the new value. -/
theorem assocSet_lookup {α : Type} (kvs : List (String × α)) (k : String)
    (v : α) : assocLookup (assocSet kvs k v) k = some v := by
  induction kvs with
  | nil => simp [assocSet, assocLookup]
  | cons hd tl ih =>
      obtain ⟨k', v'⟩ := hd
      by_cases h : k' = k
      · simp [assocSet, assocLookup, h]
      · simp [assocSet, assocLookup, h, ih]

/-- A freshly set cache entry is returned by `get` at any time before its
expiry. -/
theorem NodeCache.get_set {α : Type} (c : NodeCache α) (k : String) (v : α)
    (t0 t1 : ℚ) (h : t1 < t0 + c.stdTTL * 1000) :
    (c.set k v t0).get k t1 = some v := by
  simp [NodeCache.get, NodeCache.set, assocSet_lookup, h]

/-- C2: when the current-weather cache misses and the upstream attempt
fails (network rejection, non-2xx, or a normalizer TypeError on a
malformed body), `getCurrentWeather` still returns — its return type is
total — and the returned payload is the synthesized placeholder, with
type current_weather and the requested lat and lon in its location. -/
theorem C2_current_weather_fallback (cache : NodeCache CurrentWeather)
    (now lat lon : ℚ) (upstream : Except String Json)
    (hmiss : cache.get (currentWeatherKey lat lon) now = none)
    (hfail : ∃ e, upstream.bind normalizeOpenWeatherData = .error e) :
    (getCurrentWeather cache now upstream lat lon).payload
        = getFakeWeatherData now lat lon ∧
    (getCurrentWeather cache now upstream lat lon).payload.ctype
        = "current_weather" ∧
    (getCurrentWeather cache now upstream lat lon).payload.location.lat
        = .num lat ∧
    (getCurrentWeather cache now upstream lat lon).payload.location.lon
        = .num lon := by
  obtain ⟨e, he⟩ := hfail
  simp [getCurrentWeather, hmiss, he, getFakeWeatherData]

/-- Concrete instantiation of `C2_current_weather_fallback` on an empty
cache and a rejected upstream call. -/
theorem C2_current_weather_fallback_witness :
    (getCurrentWeather ⟨weatherCacheStdTTL, []⟩ 0
        (.error "network error") 10 20).payload
      = getFakeWeatherData 0 10 20 ∧
    (getCurrentWeather ⟨weatherCacheStdTTL, []⟩ 0
        (.error "network error") 10 20).payload.ctype = "current_weather" ∧
    (getCurrentWeather ⟨weatherCacheStdTTL, []⟩ 0
        (.error "network error") 10 20).payload.location.lat = .num 10 ∧
    (getCurrentWeather ⟨weatherCacheStdTTL, []⟩ 0
        (.error "network error") 10 20).payload.location.lon = .num 20 :=
  C2_current_weather_fallback ⟨weatherCacheStdTTL, []⟩ 0 10 20
    (.error "network error") rfl ⟨"network error", rfl⟩

/-- Bind of a successful `Except` value. -/
theorem exceptOkBind {α β : Type} (a : α) (f : α → Except String β) :
    (Except.ok a : Except String α).bind f = f a := rfl

/-- Monadic bind of a successful `Except` value. -/
theorem exceptOkSeq {α β : Type} (a : α) (f : α → Except String β) :
    (Except.ok a : Except String α) >>= f = f a := rfl

/-- Monadic bind of a failed `Except` value. -/
theorem exceptErrorSeq {α β : Type} (e : String) (f : α → Except String β) :
    (Except.error e : Except String α) >>= f = Except.error e := rfl

/-- Map over a successful `Except` value. -/
theorem exceptOkMap {α β : Type} (a : α) (f : α → β) :
    f <$> (Except.ok a : Except String α) = Except.ok (f a) := rfl

/-- Map over a failed `Except` value. -/
theorem exceptErrorMap {α β : Type} (e : String) (f : α → β) :
    f <$> (Except.error e : Except String α) = Except.error e := rfl

/-- C3: two successive `getCurrentWeather` calls for the same lat/lon
within the 1800 s TTL window perform exactly one upstream call: the first
(cache miss, upstream body normalizing successfully) performs one call
and stores the normalized result under the fingerprint key; the second
returns the cached value with zero upstream calls and an unchanged cache,
whatever its own upstream outcome would have been. -/
theorem C3_current_weather_cache_hit (cache : NodeCache CurrentWeather)
    (t0 t1 lat lon : ℚ) (nd : CurrentWeather)
    (upstream upstream2 : Except String Json)
    (hTTL : cache.stdTTL = weatherCacheStdTTL)
    (hmiss : cache.get (currentWeatherKey lat lon) t0 = none)
    (hok : upstream.bind normalizeOpenWeatherData = .ok nd)
    (_h01 : t0 ≤ t1) (hwin : t1 < t0 + 1800 * 1000) :
    (getCurrentWeather cache t0 upstream lat lon).upstreamCalls = 1 ∧
    (getCurrentWeather cache t0 upstream lat lon).payload = nd ∧
    (getCurrentWeather (getCurrentWeather cache t0 upstream lat lon).cache
        t1 upstream2 lat lon).upstreamCalls = 0 ∧
    (getCurrentWeather (getCurrentWeather cache t0 upstream lat lon).cache
        t1 upstream2 lat lon).payload = nd ∧
    (getCurrentWeather (getCurrentWeather cache t0 upstream lat lon).cache
        t1 upstream2 lat lon).cache
      = (getCurrentWeather cache t0 upstream lat lon).cache := by
  have h1 : getCurrentWeather cache t0 upstream lat lon =
      ⟨nd, cache.set (currentWeatherKey lat lon) nd t0, 1⟩ := by
    simp [getCurrentWeather, hmiss, hok]
  have hget : (cache.set (currentWeatherKey lat lon) nd t0).get
      (currentWeatherKey lat lon) t1 = some nd := by
    refine NodeCache.get_set cache _ nd t0 t1 ?_
    rw [hTTL]
    simpa [weatherCacheStdTTL] using hwin
  rw [h1]
  simp [getCurrentWeather, hget]

/-- A well-formed upstream current-weather body used to instantiate the
cache theorem. -/
def sampleUpstreamCurrent : Json :=
  .obj [("name", .str "Testville"),
        ("sys", .obj [("country", .str "US"), ("sunrise", .num 1),
                      ("sunset", .num 2)]),
        ("coord", .obj [("lat", .num 10), ("lon", .num 20)]),
        ("weather", .arr [.obj [("main", .str "Clear"),
                                ("description", .str "clear sky"),
                                ("icon", .str "01d")]]),
        ("main", .obj [("temp", .num 20), ("feels_like", .num 21),
                       ("humidity", .num 50), ("pressure", .num 1000)]),
        ("wind", .obj [("speed", .num 3), ("deg", .num 90)]),
        ("clouds", .obj [("all", .num 10)]),
        ("visibility", .num 10000),
        ("dt", .num 1000)]

/-- The normalization of `sampleUpstreamCurrent`. -/
def sampleNormalizedCurrent : CurrentWeather :=
  { ctype := "current_weather"
    location := ⟨.str "Testville", .str "US", .num 10, .num 20⟩
    weather := ⟨.str "Clear", .str "clear sky", .str "01d", .num 20, .num 21,
                .num 50, .num 1000, .num 3, .num 90, .num 10, .num 10000, none⟩
    timestamp := some 1000000
    sunrise := some 1000
    sunset := some 2000 }

/-- Evaluation of the normalizer on the sample body. -/
theorem normalize_sampleUpstreamCurrent :
    normalizeOpenWeatherData sampleUpstreamCurrent
      = .ok sampleNormalizedCurrent := by
  rw [normalizeOpenWeatherData]
  simp only [sampleUpstreamCurrent, getField, assocLookup, jsIndex,
    exceptOkSeq, exceptErrorSeq, exceptOkMap, exceptErrorMap, epochToMs,
    String.reduceEq, reduceIte, Option.getD]
  norm_num [sampleNormalizedCurrent, assocLookup, String.reduceEq, reduceIte,
    Option.getD, exceptOkSeq, exceptErrorSeq]
  simp [String.reduceEq]

/-- Concrete instantiation of `C3_current_weather_cache_hit`: first call
at t = 0 on an empty cache, second at t = 1000 ms. -/
theorem C3_current_weather_cache_hit_witness :
    (getCurrentWeather ⟨weatherCacheStdTTL, []⟩ 0
        (.ok sampleUpstreamCurrent) 10 20).upstreamCalls = 1 ∧
    (getCurrentWeather ⟨weatherCacheStdTTL, []⟩ 0
        (.ok sampleUpstreamCurrent) 10 20).payload = sampleNormalizedCurrent ∧
    (getCurrentWeather
        (getCurrentWeather ⟨weatherCacheStdTTL, []⟩ 0
          (.ok sampleUpstreamCurrent) 10 20).cache
        1000 (.error "no second call") 10 20).upstreamCalls = 0 ∧
    (getCurrentWeather
        (getCurrentWeather ⟨weatherCacheStdTTL, []⟩ 0
          (.ok sampleUpstreamCurrent) 10 20).cache
        1000 (.error "no second call") 10 20).payload
      = sampleNormalizedCurrent ∧
    (getCurrentWeather
        (getCurrentWeather ⟨weatherCacheStdTTL, []⟩ 0
          (.ok sampleUpstreamCurrent) 10 20).cache
        1000 (.error "no second call") 10 20).cache
      = (getCurrentWeather ⟨weatherCacheStdTTL, []⟩ 0
          (.ok sampleUpstreamCurrent) 10 20).cache :=
  C3_current_weather_cache_hit ⟨weatherCacheStdTTL, []⟩ 0 1000 10 20
    sampleNormalizedCurrent (.ok sampleUpstreamCurrent)
    (.error "no second call") rfl rfl
    (by rw [exceptOkBind]; exact normalize_sampleUpstreamCurrent)
    (by norm_num) (by norm_num)

/-! ## Hurricane and disaster normalizers (part_000) -/

/-- A point of a normalized hurricane track. -/
structure TrackPoint where
  lat : Json
  lon : Json
  timestamp : Option ℚ
  wind_speed : Json
deriving Repr

/-- A point of a normalized hurricane forecast track. -/
structure ForecastTrackPoint where
  lat : Json
  lon : Json
  timestamp : Option ℚ
  wind_speed : Json
  category : Json
deriving Repr

/-- A normalized hurricane record; `htype` is the payload `type` field,
`movementDirection`/`movementSpeed` are the `movement` sub-object. -/
structure Hurricane where
  htype : String
  id : Json
  name : Json
  category : Json
  lat : Json
  lon : Json
  movementDirection : Json
  movementSpeed : Json
  pressure : Json
  wind_speed : Json
  path : List TrackPoint
  forecast : List ForecastTrackPoint
deriving Repr

/-- One point of `storm.track` (part_000, lines 504-509). -/
def normalizeTrackPoint (jsDate : String → ℚ) (point : Json) :
    Except String TrackPoint := do
  let lat ← getField point "lat"
  let lon ← getField point "lon"
  let time ← getField point "time"
  let ws ← getField point "windSpeed"
  return ⟨lat, lon, jsNewDateMs jsDate time, ws⟩

/-- One point of `storm.forecast` (part_000, lines 510-516). -/
def normalizeForecastTrackPoint (jsDate : String → ℚ) (point : Json) :
    Except String ForecastTrackPoint := do
  let lat ← getField point "lat"
  let lon ← getField point "lon"
  let time ← getField point "time"
  let ws ← getField point "windSpeed"
  let cat ← getField point "category"
  return ⟨lat, lon, jsNewDateMs jsDate time, ws, cat⟩

/-- One storm of `data.activeStorms` (part_000, lines 489-517), with the
field extractions in the evaluation order of the object literal; a
missing `movement`, `track` or `forecast` raises a TypeError. -/
def normalizeStorm (jsDate : String → ℚ) (now : ℚ) (storm : Json) :
    Except String Hurricane := do
  let id0 ← getField storm "id"
  let name ← getField storm "name"
  let classification ← getField storm "classification"
  let lat ← getField storm "lat"
  let lon ← getField storm "lon"
  let movement ← getField storm "movement"
  let dir ← getField movement "direction"
  let spd ← getField movement "speed"
  let pressure ← getField storm "pressure"
  let windSpeed ← getField storm "windSpeed"
  let track ← getField storm "track"
  let path ← jsMapM (normalizeTrackPoint jsDate) track
  let fc0 ← getField storm "forecast"
  let forecast ← jsMapM (normalizeForecastTrackPoint jsDate) fc0
  return { htype := "hurricane"
           id := if truthy id0 then id0
                 else .str ("hurricane-" ++ numStr now)
           name
           category := if truthy classification then classification
                       else .str "Unknown"
           lat
           lon
           movementDirection := dir
           movementSpeed := spd
           pressure
           wind_speed := windSpeed
           path
           forecast }

/-- `normalizeHurricaneData` (part_000, lines 484-518). The first match
arm mirrors the `!data.activeStorms || !Array.isArray(...)` guard: an
array is always truthy, and every other value — absent, falsy, or a
non-array — returns the empty list. -/
def normalizeHurricaneData (jsDate : String → ℚ) (now : ℚ) (data : Json) :
    Except String (List Hurricane) :=
  match getField data "activeStorms" with
  | .error e => .error e
  | .ok storms =>
      match storms with
      | .arr xs => xs.mapM (normalizeStorm jsDate now)
      | _ => .ok []

/-- One entry of a normalized disaster `sources` list. -/
structure DisasterSource where
  id : Json
  url : Json
deriving Repr

/-- A normalized disaster record; `location` is the canonical (lat, lon)
pair reversed from the EONET [lon, lat] convention, `none` when the event
has no geometry. The `timestamp` outer `Option` is the JavaScript `null`
of a missing geometry, the inner one a NaN from an unparsable date. -/
structure Disaster where
  dtype : String
  id : Json
  title : Json
  description : Json
  category : Json
  location : Option (Json × Json)
  timestamp : Option (Option ℚ)
  sources : List DisasterSource
deriving Repr

/-- One event of `data.events` (part_000, lines 566-585); `geometry` is
the first geometry entry when the geometry list is a nonempty array
(`event.geometry && event.geometry.length > 0`), otherwise null. -/
def normalizeDisasterEvent (jsDate : String → ℚ) (event : Json) :
    Except String Disaster := do
  let geometryField ← getField event "geometry"
  let geometry : Option Json :=
    match geometryField with
    | .arr (g :: _) => some g
    | _ => none
  let id ← getField event "id"
  let title ← getField event "title"
  let description0 ← getField event "description"
  let categories ← getField event "categories"
  let cat0 ← jsIndex categories 0
  let catTitle ← getField cat0 "title"
  let location ← match geometry with
    | some g => do
        let coords ← getField g "coordinates"
        let lat ← jsIndex coords 1
        let lon ← jsIndex coords 0
        pure (some (lat, lon))
    | none => pure none
  let timestamp ← match geometry with
    | some g => do
        let d ← getField g "date"
        pure (some (jsNewDateMs jsDate d))
    | none => pure none
  let sourcesField ← getField event "sources"
  let sources ← jsMapM (fun src => do
      let sid ← getField src "id"
      let surl ← getField src "url"
      pure (⟨sid, surl⟩ : DisasterSource)) sourcesField
  return { dtype := "natural_disaster"
           id
           title
           description := if truthy description0 then description0
                          else .str ""
           category := catTitle
           location
           timestamp
           sources }

/-- `normalizeDisasterData` (part_000, lines 561-586). The first match
arm mirrors the `!data.events || !Array.isArray(...)` guard. -/
def normalizeDisasterData (jsDate : String → ℚ) (data : Json) :
    Except String (List Disaster) :=
  match getField data "events" with
  | .error e => .error e
  | .ok events =>
      match events with
      | .arr xs => xs.mapM (normalizeDisasterEvent jsDate)
      | _ => .ok []

/-- An upstream hurricane payload whose `activeStorms` entry is present
and an array, but whose single storm lacks the `movement` object. -/
def stormMissingMovement : Json :=
  .obj [("activeStorms",
         .arr [.obj [("id", .str "al012024"), ("name", .str "Alpha"),
                     ("lat", .num 1), ("lon", .num 2)]])]

/-- C10: on any object payload whose `activeStorms` (respectively
`events`) entry is absent or not an array, the hurricane and disaster
normalizers return the empty list rather than throwing; other malformed
fields may still throw, witnessed by a storm entry that lacks its
`movement` object. -/
theorem C10_normalizers_missing_array (jsDate : String → ℚ) (now : ℚ)
    (kvs kvs2 : List (String × Json))
    (hh : ∀ xs : List Json, assocLookup kvs "activeStorms" ≠ some (.arr xs))
    (hd : ∀ xs : List Json, assocLookup kvs2 "events" ≠ some (.arr xs)) :
    normalizeHurricaneData jsDate now (.obj kvs) = .ok [] ∧
    normalizeDisasterData jsDate (.obj kvs2) = .ok [] ∧
    (∃ e, normalizeHurricaneData jsDate now stormMissingMovement
        = .error e) := by
  refine ⟨?_, ?_, ?_⟩
  · cases hv : assocLookup kvs "activeStorms" with
    | none => simp [normalizeHurricaneData, getField, hv]
    | some v =>
        cases v with
        | arr xs => exact absurd hv (hh xs)
        | null => simp [normalizeHurricaneData, getField, hv]
        | undefined => simp [normalizeHurricaneData, getField, hv]
        | bool b => simp [normalizeHurricaneData, getField, hv]
        | num q => simp [normalizeHurricaneData, getField, hv]
        | str s => simp [normalizeHurricaneData, getField, hv]
        | obj o => simp [normalizeHurricaneData, getField, hv]
  · cases hv : assocLookup kvs2 "events" with
    | none => simp [normalizeDisasterData, getField, hv]
    | some v =>
        cases v with
        | arr xs => exact absurd hv (hd xs)
        | null => simp [normalizeDisasterData, getField, hv]
        | undefined => simp [normalizeDisasterData, getField, hv]
        | bool b => simp [normalizeDisasterData, getField, hv]
        | num q => simp [normalizeDisasterData, getField, hv]
        | str s => simp [normalizeDisasterData, getField, hv]
        | obj o => simp [normalizeDisasterData, getField, hv]
  · refine ⟨"TypeError: cannot read direction of undefined", ?_⟩
    rw [normalizeHurricaneData]
    simp only [stormMissingMovement, getField, assocLookup, String.reduceEq,
      reduceIte, Option.getD]
    rw [show (List.mapM (normalizeStorm jsDate now)
        [Json.obj [("id", .str "al012024"), ("name", .str "Alpha"),
                   ("lat", .num 1), ("lon", .num 2)]]) =
        (normalizeStorm jsDate now
          (Json.obj [("id", .str "al012024"), ("name", .str "Alpha"),
                     ("lat", .num 1), ("lon", .num 2)])).bind
          (fun h => (List.mapM (normalizeStorm jsDate now) []).bind
            (fun t => .ok (h :: t))) from rfl]
    rw [normalizeStorm]
    simp only [getField, assocLookup, String.reduceEq, reduceIte,
      Option.getD, exceptOkSeq, exceptErrorSeq, exceptOkMap, exceptErrorMap]
    rfl

/-- Concrete instantiation of `C10_normalizers_missing_array`: a numeric
`activeStorms` entry and an object with no `events` key. -/
theorem C10_normalizers_missing_array_witness :
    normalizeHurricaneData (fun _ => 0) 0
        (.obj [("activeStorms", .num 5)]) = .ok [] ∧
    normalizeDisasterData (fun _ => 0) (.obj []) = .ok [] ∧
    (∃ e, normalizeHurricaneData (fun _ => 0) 0 stormMissingMovement
        = .error e) :=
  C10_normalizers_missing_array (fun _ => 0) 0
    [("activeStorms", .num 5)] []
    (by intro xs; simp [assocLookup])
    (by intro xs; simp [assocLookup])

/-! ## JavaScript string runtime for the wildfire CSV normalizer

Structural char-list implementations of the JavaScript string operations
used by `normalizeWildfireData`: `split` with a one-character separator,
`trim`, `substring`, template-literal interpolation of `undefined`, and
`parseFloat`. -/

/-- Worker for `jsSplitChar`, carrying the reversed current segment. -/
def jsSplitCharAux (c : Char) : List Char → List Char → List String
  | [], acc => [String.mk acc.reverse]
  | x :: xs, acc =>
      if x = c then String.mk acc.reverse :: jsSplitCharAux c xs []
      else jsSplitCharAux c xs (x :: acc)

/-- JavaScript `s.split(sep)` for a one-character separator: always
returns at least one segment, and keeps empty segments. -/
def jsSplitChar (c : Char) (s : String) : List String :=
  jsSplitCharAux c s.toList []

/-- JavaScript `s.trim()`: strips whitespace from both ends. -/
def jsTrim (s : String) : String :=
  String.mk
    (((s.toList.dropWhile (·.isWhitespace)).reverse.dropWhile
      (·.isWhitespace)).reverse)

/-- JavaScript `s.substring(i, j)` for `i ≤ j`, clamped to the string
length. -/
def jsSubstring (s : String) (i j : ℕ) : String :=
  String.mk ((s.toList.take j).drop i)

/-- Interpolation of a possibly-undefined value into a template literal:
`undefined` prints as the string undefined. -/
def undefTemplate : Option String → String
  | some s => s
  | none => "undefined"

/-- Value of a digit string. -/
def digitsVal (cs : List Char) : ℕ :=
  cs.foldl (fun a c => a * 10 + (c.toNat - 48)) 0

/-- JavaScript `parseFloat`: skips leading whitespace, an optional sign,
then reads a decimal number and ignores any trailing garbage; `none`
models the NaN returned when no digits are found. (Exponent forms are
not modelled; the upstream feed uses plain decimals.) -/
def parseFloatQ (s : String) : Option ℚ :=
  let cs := s.toList.dropWhile (·.isWhitespace)
  let sign : ℚ := if cs.headD ' ' = '-' then -1 else 1
  let cs := if cs.headD ' ' = '-' ∨ cs.headD ' ' = '+' then cs.drop 1 else cs
  let intPart := cs.takeWhile (·.isDigit)
  let rest := cs.dropWhile (·.isDigit)
  let fracPart :=
    match rest with
    | '.' :: r => r.takeWhile (·.isDigit)
    | _ => []
  if intPart = [] ∧ fracPart = [] then none
  else some (sign * ((digitsVal intPart : ℚ)
    + (digitsVal fracPart : ℚ) / (10 : ℚ) ^ fracPart.length))

/-! ## Wildfire normalizer (part_000) -/

/-- A normalized wildfire detection; `wtype` is the payload `type` field.
The `Option` fields model the `undefined`/NaN produced when a named
column is missing from a row. -/
structure WildfireRecord where
  wtype : String
  id : String
  lat : Option ℚ
  lon : Option ℚ
  date : Option String
  time : Option String
  brightness : Option ℚ
  confidence : Option String
  timestamp : ℚ
deriving Repr, DecidableEq

/-- One data row of the CSV (part_000, lines 538-552): splits on commas,
reads the named columns by the indices located in the header, and builds
the timestamp from the acquisition date and the first two and next two
characters of the acquisition time. A row whose time column is absent
raises a TypeError (`substring` of `undefined`); `freshId` abstracts the
`Date.now` and `Math.random` synthetic id, indexed by the position of the
row in the mapped list. -/
def normalizeWildfireRow (jsDate : String → ℚ) (freshId : ℕ → String)
    (latIndex lonIndex dateIndex timeIndex brightnessIndex
     confidenceIndex : ℕ) (rowIdx : ℕ) (line : String) :
    Except String WildfireRecord :=
  let values := jsSplitChar ',' line
  match values.get? timeIndex with
  | none => .error "TypeError: substring of undefined"
  | some timeVal =>
      .ok { wtype := "wildfire"
            id := freshId rowIdx
            lat := (values.get? latIndex).bind parseFloatQ
            lon := (values.get? lonIndex).bind parseFloatQ
            date := values.get? dateIndex
            time := some timeVal
            brightness := (values.get? brightnessIndex).bind parseFloatQ
            confidence := values.get? confidenceIndex
            timestamp := jsDate (undefTemplate (values.get? dateIndex) ++ " "
              ++ jsSubstring timeVal 0 2 ++ ":" ++ jsSubstring timeVal 2 4) }

/-- `normalizeWildfireData` (part_000, lines 525-554): splits the CSV
into lines, locates the six named columns in the header (a missing name
gives an out-of-range index, hence `undefined` reads, as the JavaScript
-1 does), drops rows that are empty after trimming, and maps the rest.
`List.findIdx` returns the list length when the name is absent, which
indexes out of range exactly like the JavaScript -1. -/
def normalizeWildfireData (jsDate : String → ℚ) (freshId : ℕ → String)
    (csvData : String) : Except String (List WildfireRecord) :=
  let lines := jsSplitChar '\n' csvData
  let headers := jsSplitChar ',' (lines.headD "")
  let latIndex := headers.findIdx (· == "latitude")
  let lonIndex := headers.findIdx (· == "longitude")
  let dateIndex := headers.findIdx (· == "acq_date")
  let timeIndex := headers.findIdx (· == "acq_time")
  let brightnessIndex := headers.findIdx (· == "bright_ti4")
  let confidenceIndex := headers.findIdx (· == "confidence")
  ((lines.drop 1).filter (fun line => jsTrim line != "")).enum.mapM
    (fun p => normalizeWildfireRow jsDate freshId latIndex lonIndex
      dateIndex timeIndex brightnessIndex confidenceIndex p.1 p.2)

/-- A successful `mapM.loop` over `Except` produces one output per input
plus the accumulator. -/
theorem exceptMapMLoopLength {α β : Type} (f : α → Except String β) :
    ∀ (xs : List α) (acc ys : List β),
      List.mapM.loop f xs acc = .ok ys → ys.length = xs.length + acc.length := by
  intro xs
  induction xs with
  | nil =>
      intro acc ys h
      simp only [List.mapM.loop, pure, Except.pure] at h
      cases h
      simp
  | cons x xs ih =>
      intro acc ys h
      simp only [List.mapM.loop] at h
      cases hfx : f x with
      | error e => rw [hfx] at h; exact absurd h (by simp [exceptErrorSeq])
      | ok b =>
          rw [hfx, exceptOkSeq] at h
          have := ih (b :: acc) ys h
          simp only [List.length_cons] at this ⊢
          omega

/-- A successful `mapM` over `Except` preserves the list length. -/
theorem exceptMapMLength {α β : Type} (f : α → Except String β)
    (xs : List α) (ys : List β) (h : xs.mapM f = .ok ys) :
    ys.length = xs.length := by
  have := exceptMapMLoopLength f xs [] ys h
  simpa using this

/-- The scenario CSV: the six-column header and one detection row. -/
def sampleWildfireCsv : String :=
  "latitude,longitude,acq_date,acq_time,bright_ti4,confidence\n10.5,20.5,2024-01-01,1345,320.1,85"

/-- The scenario CSV padded with rows that are empty after trimming. -/
def sampleWildfireCsvBlanks : String :=
  "latitude,longitude,acq_date,acq_time,bright_ti4,confidence\n   \n10.5,20.5,2024-01-01,1345,320.1,85\n\t\n"

/-- The record produced for the scenario data row. -/
def sampleWildfireRecord (jsDate : String → ℚ) (freshId : ℕ → String) :
    WildfireRecord :=
  { wtype := "wildfire", id := freshId 0, lat := some (21/2),
    lon := some (41/2), date := some "2024-01-01", time := some "1345",
    brightness := some (3201/10), confidence := some "85",
    timestamp := jsDate "2024-01-01 13:45" }

/-- C9: on the six-column header, the data row 10.5,20.5,2024-01-01,1345,
320.1,85 normalizes to lat 10.5, lon 20.5, brightness 320.1 and the
timestamp handed to the host date parse as 2024-01-01 13:45 (hour and
minute cut from the first two and next two characters of the time
column); rows that are empty after trimming are skipped, both in a
concrete padded input and, on any successful run, through the output
having exactly one record per nonempty data row. -/
theorem C9_wildfire_normalizer (jsDate : String → ℚ)
    (freshId : ℕ → String) :
    normalizeWildfireData jsDate freshId sampleWildfireCsv
      = .ok [sampleWildfireRecord jsDate freshId] ∧
    normalizeWildfireData jsDate freshId sampleWildfireCsvBlanks
      = .ok [sampleWildfireRecord jsDate freshId] ∧
    (∀ (csvData : String) (ys : List WildfireRecord),
      normalizeWildfireData jsDate freshId csvData = .ok ys →
      ys.length = (((jsSplitChar '\n' csvData).drop 1).filter
        (fun line => jsTrim line != "")).length) := by
  refine ⟨?_, ?_, ?_⟩
  · simp [normalizeWildfireData, normalizeWildfireRow, jsSplitChar,
      jsSplitCharAux, jsTrim, jsSubstring, parseFloatQ, digitsVal,
      undefTemplate, String.toList, List.enum, List.mapM, List.mapM.loop,
      sampleWildfireCsv, List.findIdx, List.findIdx.go, String.reduceBEq,
      List.getElem?_cons_zero, List.getElem?_cons_succ, Option.bind,
      sampleWildfireRecord]
    norm_num
  · simp [normalizeWildfireData, normalizeWildfireRow, jsSplitChar,
      jsSplitCharAux, jsTrim, jsSubstring, parseFloatQ, digitsVal,
      undefTemplate, String.toList, List.enum, List.mapM, List.mapM.loop,
      sampleWildfireCsvBlanks, List.findIdx, List.findIdx.go,
      String.reduceBEq, List.getElem?_cons_zero, List.getElem?_cons_succ,
      Option.bind, sampleWildfireRecord]
    norm_num
  · intro csvData ys h
    rw [normalizeWildfireData] at h
    have := exceptMapMLength _ _ _ h
    simpa using this

/-! ## Client-side engine state (weather.interface.js)

The tracked slice of the `WeatherInterface` static state: the
active-layer flags and layer records (JavaScript objects modelled as
insertion-ordered association lists), the layout visibility of the map
sublayers, the live map zoom, the current viewport, and the prefetch
scheduler state. DOM mutations (toggle buttons, panels) and paint-only
map properties are not tracked. -/

/-- A tracked layer record (`this.weatherLayers[id]`); `ltype` is the
record `type` field (absent on the cities record), `zoomCategory` is
tracked only by the builders that set it. -/
structure LayerRecord where
  visibility : String
  ltype : Option String
  zoomCategory : Option ZoomCategory
  layers : List String
deriving Repr, DecidableEq

/-- A longitude/latitude pair. -/
structure LngLat where
  lng : ℚ
  lat : ℚ
deriving Repr, DecidableEq

/-- Map viewport bounds with the `_sw` and `_ne` corners. -/
structure Bounds where
  sw : LngLat
  ne : LngLat
deriving Repr, DecidableEq

/-- The extended prefetch bounding box (west/south/east/north). -/
structure ExtBounds where
  west : ℚ
  south : ℚ
  east : ℚ
  north : ℚ
deriving Repr, DecidableEq

/-- A queued prefetch task. -/
structure PrefetchTask where
  layerId : String
  bounds : ExtBounds
  zoomCategory : ZoomCategory
deriving Repr, DecidableEq

/-- `toFixed(2)` as used in the simulated tile-cache key: the value in
exact hundredths. -/
def toFixed2 (q : ℚ) : ℤ := round (q * 100)

/-- Key of a simulated tile-cache entry: the four bounds coordinates
rounded to hundredths and the zoom category (source line 2257). -/
structure TileKey where
  west : ℤ
  south : ℤ
  east : ℤ
  north : ℤ
  zoomCategory : ZoomCategory
deriving Repr, DecidableEq

/-- The tile-cache key of a task. -/
def tileKeyOf (b : ExtBounds) (zc : ZoomCategory) : TileKey :=
  ⟨toFixed2 b.west, toFixed2 b.south, toFixed2 b.east, toFixed2 b.north, zc⟩

/-- The client tile cache: (layer, key) to the warm timestamp. -/
abbrev TileCache := List ((String × TileKey) × ℚ)

/-- The four tile-backed layer ids. -/
def tileBackedLayers : List String :=
  ["temperature", "precipitation", "wind", "cloud"]

/-- `setTimeout(() => this.processPrefetchQueue(), 100)` — the fixed
pacing gap of the prefetch consumer, in milliseconds. -/
def prefetchPauseMs : ℕ := 100

/-- The tracked client state. -/
structure ClientState where
  activeWeatherLayers : List (String × Bool)
  weatherLayers : List (String × LayerRecord)
  mapLayerVisibility : List (String × String)
  mapZoom : ℚ
  viewportBounds : Option Bounds
  viewportZoom : ℚ
  prefetchQueue : List PrefetchTask
  prefetchInProgress : Bool
  tileCache : TileCache
deriving Repr, DecidableEq

/-- Read of `this.activeWeatherLayers[l]` as a condition: a missing key
is `undefined`, hence falsy. -/
def getFlag (s : ClientState) (l : String) : Bool :=
  (assocLookup s.activeWeatherLayers l).getD false

/-- Write of `this.activeWeatherLayers[l]`. -/
def setFlag (s : ClientState) (l : String) (b : Bool) : ClientState :=
  { s with activeWeatherLayers := assocSet s.activeWeatherLayers l b }

/-- Read of `this.weatherLayers[l]`. -/
def getRecord (s : ClientState) (l : String) : Option LayerRecord :=
  assocLookup s.weatherLayers l

/-- Write of `this.weatherLayers[l]`. -/
def setRecord (s : ClientState) (l : String) (r : LayerRecord) : ClientState :=
  { s with weatherLayers := assocSet s.weatherLayers l r }

/-- `ids.forEach(id => if (map.getLayer(id))
map.setLayoutProperty(id, visibility, vis))`. -/
def mapSetVisibility (s : ClientState) (ids : List String) (vis : String) :
    ClientState :=
  let m := ids.foldl
    (fun m id => if (assocLookup m id).isSome then assocSet m id vis else m)
    s.mapLayerVisibility
  { s with mapLayerVisibility := m }

/-- `map.removeLayer` over a list of sublayer ids. -/
def mapRemoveLayers (s : ClientState) (ids : List String) : ClientState :=
  let m := s.mapLayerVisibility.filter (fun p => !(ids.contains p.1))
  { s with mapLayerVisibility := m }

/-- `map.addLayer` over a list of sublayer ids; a layer is added with
the default layout visibility visible. -/
def mapAddLayers (s : ClientState) (ids : List String) : ClientState :=
  let m := ids.foldl (fun m id => assocSet m id "visible") s.mapLayerVisibility
  { s with mapLayerVisibility := m }

/-! ## Prefetch scheduler (weather.interface.js, lines 2172-2278) -/

/-- The outcome with which one prefetch task settles; there is no
rejection outcome because `prefetchTiles` only ever resolves. -/
inductive PrefetchOutcome where
  | skippedNonTile
  | cacheHit
  | loaded
deriving Repr, DecidableEq

/-- `prefetchTiles` (lines 2243-2278): a non-tile layer resolves
immediately; a cached (bounds, category) key resolves as a hit; otherwise
the key is warmed into the cache with the current timestamp. -/
def prefetchTiles (now : ℚ) (cache : TileCache) (task : PrefetchTask) :
    TileCache × PrefetchOutcome :=
  if task.layerId ∈ tileBackedLayers then
    let key := (task.layerId, tileKeyOf task.bounds task.zoomCategory)
    if (cache.lookup key).isSome then (cache, .cacheHit)
    else (cache ++ [(key, now)], .loaded)
  else (cache, .skippedNonTile)

/-- `processPrefetchQueue` (lines 2214-2234) run to quiescence: the
invocation that observes an empty queue goes idle; otherwise the head
task is popped, settles through `prefetchTiles` (both the resolution and
the rejection branch of the source advance identically, so no error can
leave the loop), and the loop continues after the fixed pause. The
second component is the settled log: each processed task with its
outcome and the pause that followed it. -/
def processPrefetchQueue (now : ℚ) (s : ClientState) :
    ClientState × List (PrefetchTask × PrefetchOutcome × ℕ) :=
  match h : s.prefetchQueue with
  | [] => ({ s with prefetchInProgress := false }, [])
  | item :: rest =>
      let pr := prefetchTiles now s.tileCache item
      let s1 :=
        { s with prefetchInProgress := true, prefetchQueue := rest, tileCache := pr.1 }
      let r := processPrefetchQueue now s1
      (r.1, (item, pr.2, prefetchPauseMs) :: r.2)
termination_by s.prefetchQueue.length
decreasing_by simp [h]

/-- The 20%-per-side extension of the viewport bounds
(lines 2181-2192). -/
def extendBounds (b : Bounds) : ExtBounds :=
  let width := b.ne.lng - b.sw.lng
  let height := b.ne.lat - b.sw.lat
  ⟨b.sw.lng - width * (0.2 : ℚ), b.sw.lat - height * (0.2 : ℚ),
   b.ne.lng + width * (0.2 : ℚ), b.ne.lat + height * (0.2 : ℚ)⟩

/-- The enqueue phase of `queueTilePrefetch` (lines 2172-2203): clears
the queue, computes the extended bounds, and pushes one task per
currently-active layer, whatever its type. The none arm is unreachable:
every caller guards on `this.currentViewport.bounds`. -/
def queueTilePrefetchEnqueue (s : ClientState) : ClientState :=
  match s.viewportBounds with
  | none => s
  | some bounds =>
      let zoomCategory := getZoomCategory s.viewportZoom
      let extendedBounds := extendBounds bounds
      let q := (s.activeWeatherLayers.filter (·.2)).map
        (fun p => (⟨p.1, extendedBounds, zoomCategory⟩ : PrefetchTask))
      { s with prefetchQueue := q }

/-- `queueTilePrefetch` (lines 2172-2209): after the enqueue phase the
consumer is started only when it is not already running. -/
def queueTilePrefetch (now : ℚ) (s : ClientState) : ClientState :=
  let s := queueTilePrefetchEnqueue s
  if s.prefetchInProgress then s else (processPrefetchQueue now s).1

/-! ## Layer builders (weather.interface.js) -/

/-- The sublayer ids pushed by `createTemperatureLayer`'s category
dispatch (lines 751-773): the global builder adds the raster layer and
the two climate-zone layers (lines 800-833, 938-1016); the regional
builder adds a single raster layer (contours are a stub, lines 839-873,
1022-1030); the local builder adds the raster layer and, when the live
map zoom is at least 10, the two temperature-point layers (lines
879-932, 1050-1164). -/
def temperatureSublayerIds (zc : ZoomCategory) (mapZoom : ℚ) : List String :=
  match zc with
  | GLOBAL =>
      ["temperature-global-layer", "climate-zones-lines",
       "climate-zones-labels"]
  | REGIONAL => ["temperature-regional-layer"]
  | LOCAL =>
      "temperature-local-layer" ::
        (if 10 ≤ mapZoom then
          ["temperature-points-heat", "temperature-points-values"]
        else [])

/-- `createTemperatureLayer` (lines 734-794): removes the previous
sublayers from the map, builds the category-specific sublayers, and
replaces the record with a fresh visible one tracking the category. -/
def createTemperatureLayer (s : ClientState) (zc : ZoomCategory) :
    ClientState :=
  let old := (((getRecord s "temperature").map (·.layers))).getD []
  let s := mapRemoveLayers s old
  let ids := temperatureSublayerIds zc s.mapZoom
  let s := mapAddLayers s ids
  setRecord s "temperature" ⟨"visible", some "temperature", some zc, ids⟩

/-- `createPrecipitationLayer` (lines 1666-1708): the later definition in
the class body overrides the earlier zoom-aware one, ignores the zoom
category, and tracks the single precipitation-layer sublayer (with no
`zoomCategory` field in the record). -/
def createPrecipitationLayer (s : ClientState) : ClientState :=
  let old := (((getRecord s "precipitation").map (·.layers))).getD []
  let s := mapRemoveLayers s old
  let s := mapAddLayers s ["precipitation-layer"]
  setRecord s "precipitation"
    ⟨"visible", some "precipitation", none, ["precipitation-layer"]⟩

/-- `createWindLayer` (lines 1726-1791): ignores the zoom category and
tracks the single wind-layer sublayer. -/
def createWindLayer (s : ClientState) : ClientState :=
  let old := (((getRecord s "wind").map (·.layers))).getD []
  let s := mapRemoveLayers s old
  let s := mapAddLayers s ["wind-layer"]
  setRecord s "wind" ⟨"visible", some "wind", none, ["wind-layer"]⟩

/-- `createCloudLayer` (lines 1796-1861): ignores the zoom category and
tracks the single cloud-layer sublayer. -/
def createCloudLayer (s : ClientState) : ClientState :=
  let old := (((getRecord s "cloud").map (·.layers))).getD []
  let s := mapRemoveLayers s old
  let s := mapAddLayers s ["cloud-layer"]
  setRecord s "cloud" ⟨"visible", some "cloud", none, ["cloud-layer"]⟩

/-- `initCityLabels` (lines 1885-2036): builds the single city-labels
sublayer, tracks it in a record that carries no `type` field, and forces
the cities active flag on. -/
def initCityLabels (s : ClientState) : ClientState :=
  let s := mapAddLayers s ["city-labels"]
  let s := setRecord s "cities" ⟨"visible", none, none, ["city-labels"]⟩
  setFlag s "cities" true

/-- The cities arm of `fetchLayerData` (lines 606-619): an existing
record is flipped to visible, otherwise the labels are initialized. -/
def fetchCitiesLayer (s : ClientState) : ClientState :=
  match getRecord s "cities" with
  | some rec =>
      let s := mapSetVisibility s rec.layers "visible"
      setRecord s "cities" { rec with visibility := "visible" }
  | none => initCityLabels s

/-! ## Layer lifecycle manager (weather.interface.js, lines 318-728) -/

/-- `fetchLayerData` (lines 575-728). The second component is an
uncaught JavaScript exception: the forecast arms call the undefined
`createForecastLayer` and throw synchronously; the mutations performed
before the throw (the active flag) are kept in the returned state. The
hurricane/wildfire/disaster arms only initiate a fetch whose
continuations run the undefined `createHurricaneLayer` (respectively
wildfire/disaster) builders inside the promise chain, so they never
touch the tracked state. After a successful dispatch, adjacent tiles are
queued whenever the viewport bounds are known. -/
def fetchLayerData (now : ℚ) (s : ClientState) (layerId : String)
    (zc : ZoomCategory) : ClientState × Option String :=
  if layerId = "" then (s, none)
  else
    let s := setFlag s layerId true
    let dispatch : ClientState × Option String :=
      if layerId = "temperature" then (createTemperatureLayer s zc, none)
      else if layerId = "precipitation" then (createPrecipitationLayer s, none)
      else if layerId = "wind" then (createWindLayer s, none)
      else if layerId = "cloud" then (createCloudLayer s, none)
      else if layerId = "cities" then (fetchCitiesLayer s, none)
      else if layerId = "hurricane" ∨ layerId = "wildfire"
          ∨ layerId = "disaster" then (s, none)
      else if layerId = "forecastTemp" ∨ layerId = "forecastPrecip"
          ∨ layerId = "forecastWind" then
        (s, some "TypeError: createForecastLayer is not a function")
      else (s, none)
    match dispatch with
    | (s1, some e) => (s1, some e)
    | (s1, none) =>
        if s1.viewportBounds.isSome then (queueTilePrefetch now s1, none)
        else (s1, none)

/-- The common tail of `showLayer` (lines 467-503): marks the layer
active, cascades the cities co-activation for temperature, and queues a
prefetch for tile-backed layers when the viewport is known. -/
def showLayerTail (now : ℚ) (s : ClientState) (layerId : String) :
    ClientState :=
  let s := setFlag s layerId true
  let s :=
    if layerId = "temperature" then
      let s := setFlag s "cities" true
      match getRecord s "cities" with
      | some rec =>
          let s := mapSetVisibility s rec.layers "visible"
          setRecord s "cities" { rec with visibility := "visible" }
      | none => initCityLabels s
    else s
  if s.viewportBounds.isSome ∧ layerId ∈ tileBackedLayers then
    queueTilePrefetch now s
  else s

/-- `showLayer` (lines 441-504): an already-created layer with sublayers
is flipped to visible; otherwise the layer is created at the zoom
category of the live map zoom. An exception escaping the creation skips
the tail. -/
def showLayer (now : ℚ) (s : ClientState) (layerId : String) :
    ClientState × Option String :=
  if layerId = "" then (s, none)
  else
    match getRecord s layerId with
    | some rec =>
        if 0 < rec.layers.length then
          let s := mapSetVisibility s rec.layers "visible"
          let s := setRecord s layerId { rec with visibility := "visible" }
          (showLayerTail now s layerId, none)
        else
          match fetchLayerData now s layerId (getZoomCategory s.mapZoom) with
          | (s1, some e) => (s1, some e)
          | (s1, none) => (showLayerTail now s1 layerId, none)
    | none =>
        match fetchLayerData now s layerId (getZoomCategory s.mapZoom) with
        | (s1, some e) => (s1, some e)
        | (s1, none) => (showLayerTail now s1 layerId, none)

/-- `hideLayer` (lines 510-568): flips the sublayers and the record to
hidden, hides the matching transition sublayers, clears the active flag,
and cascades the cities co-deactivation for temperature. -/
def hideLayer (s : ClientState) (layerId : String) : ClientState :=
  if layerId = "" then s
  else
    let s :=
      match getRecord s layerId with
      | some rec =>
          let s := mapSetVisibility s rec.layers "none"
          setRecord s layerId { rec with visibility := "none" }
      | none => s
    let s :=
      match getRecord s "transitions" with
      | some rec =>
          let stems := [layerId ++ "-transition-GLOBAL-REGIONAL",
                        layerId ++ "-transition-REGIONAL-LOCAL"]
          let ids := rec.layers.filter
            (fun id => stems.any (fun p => id.startsWith p))
          mapSetVisibility s ids "none"
      | none => s
    let s := setFlag s layerId false
    if layerId = "temperature" then
      let s := setFlag s "cities" false
      match getRecord s "cities" with
      | some rec =>
          let s := mapSetVisibility s rec.layers "none"
          setRecord s "cities" { rec with visibility := "none" }
      | none => s
    else s

/-- `toggleLayer` (lines 386-435): flips the active flag, cascades the
temperature-cities co-activation, returns early for a direct cities
toggle, and otherwise shows or hides the layer according to the new
flag. The whole body runs inside a catch-all, so an exception from the
show path is absorbed and the state reached so far is kept. -/
def toggleLayer (now : ℚ) (s : ClientState) (layerId : String) :
    ClientState :=
  let a := !(getFlag s layerId)
  let s := setFlag s layerId a
  let s :=
    if layerId = "temperature" then
      let s := setFlag s "cities" a
      if a then (showLayer now s "cities").1 else hideLayer s "cities"
    else s
  if layerId = "cities" then s
  else if getFlag s layerId then (showLayer now s layerId).1
  else hideLayer s layerId

/-- `refreshLayer` (lines 318-352): skips layers that are not active;
otherwise captures the current visibility (defaulting to visible when no
record exists), re-runs `fetchLayerData` at the new category, and — in
the delayed restore — writes the captured visibility back to the record
and all its sublayers. An exception from `fetchLayerData` skips the
restore and propagates. -/
def refreshLayer (now : ℚ) (s : ClientState) (layerId : String)
    (zoomCategory : ZoomCategory) : ClientState × Option String :=
  if getFlag s layerId = false then (s, none)
  else
    let currentVisibility :=
      (((getRecord s layerId).map (·.visibility))).getD "visible"
    match fetchLayerData now s layerId zoomCategory with
    | (s1, some e) => (s1, some e)
    | (s1, none) =>
        match getRecord s1 layerId with
        | some rec =>
            let s2 := setRecord s1 layerId
              { rec with visibility := currentVisibility }
            (mapSetVisibility s2 rec.layers currentVisibility, none)
        | none => (s1, none)

/-- Unfolding of the consumer at an empty queue: it goes idle without
touching anything else and settles nothing. -/
theorem processPrefetchQueue_empty (now : ℚ) (s : ClientState)
    (h : s.prefetchQueue = []) :
    processPrefetchQueue now s
      = ({ s with prefetchInProgress := false }, []) := by
  rw [processPrefetchQueue]
  split
  · rfl
  · simp_all

/-- Unfolding of the consumer at a nonempty queue: the head settles and
the loop continues on the tail. -/
theorem processPrefetchQueue_cons (now : ℚ) (s : ClientState)
    (item : PrefetchTask) (rest : List PrefetchTask)
    (h : s.prefetchQueue = item :: rest) :
    processPrefetchQueue now s =
      ((processPrefetchQueue now
          { s with prefetchInProgress := true, prefetchQueue := rest,
                   tileCache := (prefetchTiles now s.tileCache item).1 }).1,
       (item, (prefetchTiles now s.tileCache item).2, prefetchPauseMs) ::
        (processPrefetchQueue now
          { s with prefetchInProgress := true, prefetchQueue := rest,
                   tileCache := (prefetchTiles now s.tileCache item).1 }).2) := by
  rw [processPrefetchQueue]
  split
  · simp_all
  · rename_i item2 rest2 h2
    rw [h] at h2
    cases h2
    rfl

/-- C7: the prefetch consumer run to quiescence processes the queued
tasks one at a time in FIFO order, every task settles exactly once (so a
failed task is never retried) with the fixed 100 ms pause after it, the
run is a total function (no error escapes the loop), and the consumer
ends idle with an empty queue; an invocation that observes an empty
queue only clears `prefetchInProgress`. -/
theorem C7_prefetch_consumer (now : ℚ) (s : ClientState) :
    (processPrefetchQueue now s).1.prefetchQueue = [] ∧
    (processPrefetchQueue now s).1.prefetchInProgress = false ∧
    ((processPrefetchQueue now s).2.map (fun e => e.1)) = s.prefetchQueue ∧
    (∀ e ∈ (processPrefetchQueue now s).2, e.2.2 = prefetchPauseMs) ∧
    (s.prefetchQueue = [] →
      processPrefetchQueue now s
        = ({ s with prefetchInProgress := false }, [])) := by
  have main : ∀ (q : List PrefetchTask) (s : ClientState),
      s.prefetchQueue = q →
      (processPrefetchQueue now s).1.prefetchQueue = [] ∧
      (processPrefetchQueue now s).1.prefetchInProgress = false ∧
      ((processPrefetchQueue now s).2.map (fun e => e.1))
        = s.prefetchQueue ∧
      (∀ e ∈ (processPrefetchQueue now s).2, e.2.2 = prefetchPauseMs) := by
    intro q
    induction q with
    | nil =>
        intro s hq
        rw [processPrefetchQueue_empty now s hq]
        simp [hq]
    | cons item rest ih =>
        intro s hq
        rw [processPrefetchQueue_cons now s item rest hq]
        obtain ⟨a, b, c, d⟩ := ih
          { s with prefetchInProgress := true, prefetchQueue := rest,
                   tileCache := (prefetchTiles now s.tileCache item).1 } rfl
        refine ⟨a, b, ?_, ?_⟩
        · simp only [List.map_cons, c, hq]
        · intro e he
          rcases List.mem_cons.mp he with h1 | h2
          · rw [h1]
          · exact d e h2
  obtain ⟨a, b, c, d⟩ := main s.prefetchQueue s rfl
  exact ⟨a, b, c, d, fun hq => processPrefetchQueue_empty now s hq⟩

/-- A two-task queue (one tile-backed task, one hurricane task) used to
instantiate the consumer theorem. -/
def samplePrefetchState : ClientState :=
  { activeWeatherLayers := [("temperature", true), ("hurricane", true)]
    weatherLayers := []
    mapLayerVisibility := []
    mapZoom := 5
    viewportBounds := some ⟨⟨0, 0⟩, ⟨10, 10⟩⟩
    viewportZoom := 5
    prefetchQueue := [⟨"temperature", ⟨-2, -2, 12, 12⟩, REGIONAL⟩,
                      ⟨"hurricane", ⟨-2, -2, 12, 12⟩, REGIONAL⟩]
    prefetchInProgress := false
    tileCache := [] }

/-- Concrete instantiation of `C7_prefetch_consumer` on a two-task queue,
with the pause conjunct discharged at the head of the settled log and
the idle conjunct at the drained final state. -/
theorem C7_prefetch_consumer_witness :
    (processPrefetchQueue 0 samplePrefetchState).1.prefetchQueue = [] ∧
    (processPrefetchQueue 0 samplePrefetchState).1.prefetchInProgress
      = false ∧
    ((processPrefetchQueue 0 samplePrefetchState).2.map (fun e => e.1))
      = [⟨"temperature", ⟨-2, -2, 12, 12⟩, REGIONAL⟩,
         ⟨"hurricane", ⟨-2, -2, 12, 12⟩, REGIONAL⟩] ∧
    processPrefetchQueue 0 (processPrefetchQueue 0 samplePrefetchState).1
      = ({ (processPrefetchQueue 0 samplePrefetchState).1 with
            prefetchInProgress := false }, []) :=
  ⟨(C7_prefetch_consumer 0 samplePrefetchState).1,
   (C7_prefetch_consumer 0 samplePrefetchState).2.1,
   (C7_prefetch_consumer 0 samplePrefetchState).2.2.1,
   (C7_prefetch_consumer 0
      (processPrefetchQueue 0 samplePrefetchState).1).2.2.2.2
     (C7_prefetch_consumer 0 samplePrefetchState).1⟩

/-- C6 (amended): `queueTilePrefetch` computes the bounding box extended
by 20% of the viewport width/height on each side, REPLACES the queue
with one task per currently-active layer of any type (previously queued
tasks are discarded, and non-tile-backed active layers are enqueued too,
to be skipped later by `prefetchTiles`), and when the consumer is
already running it does not start a second consumer: the enqueue phase
is all that happens. -/
theorem C6_prefetch_enqueue (now : ℚ) (s : ClientState) (b : Bounds)
    (hb : s.viewportBounds = some b) :
    (queueTilePrefetchEnqueue s).prefetchQueue
      = (s.activeWeatherLayers.filter (fun p => p.2)).map
          (fun p => ⟨p.1, extendBounds b, getZoomCategory s.viewportZoom⟩) ∧
    (extendBounds b).west = b.sw.lng - (b.ne.lng - b.sw.lng) * (0.2 : ℚ) ∧
    (extendBounds b).south = b.sw.lat - (b.ne.lat - b.sw.lat) * (0.2 : ℚ) ∧
    (extendBounds b).east = b.ne.lng + (b.ne.lng - b.sw.lng) * (0.2 : ℚ) ∧
    (extendBounds b).north = b.ne.lat + (b.ne.lat - b.sw.lat) * (0.2 : ℚ) ∧
    (s.prefetchInProgress = true →
      queueTilePrefetch now s = queueTilePrefetchEnqueue s) := by
  refine ⟨?_, rfl, rfl, rfl, rfl, ?_⟩
  · simp [queueTilePrefetchEnqueue, hb]
  · intro hp
    have he : (queueTilePrefetchEnqueue s).prefetchInProgress = true := by
      simp [queueTilePrefetchEnqueue, hb, hp]
    simp [queueTilePrefetch, he]

/-- Concrete instantiation of `C6_prefetch_enqueue` at the two-layer
state. -/
theorem C6_prefetch_enqueue_witness :
    (queueTilePrefetchEnqueue samplePrefetchState).prefetchQueue
      = (samplePrefetchState.activeWeatherLayers.filter (fun p => p.2)).map
          (fun p => ⟨p.1, extendBounds ⟨⟨0, 0⟩, ⟨10, 10⟩⟩,
            getZoomCategory samplePrefetchState.viewportZoom⟩) :=
  (C6_prefetch_enqueue 0 samplePrefetchState ⟨⟨0, 0⟩, ⟨10, 10⟩⟩ rfl).1

/-- A state with a live consumer, a previously queued temperature task,
and two active layers, one of which (hurricane) is not tile-backed. -/
def c6State : ClientState :=
  { activeWeatherLayers := [("temperature", true), ("hurricane", true)]
    weatherLayers := []
    mapLayerVisibility := []
    mapZoom := 5
    viewportBounds := some ⟨⟨0, 0⟩, ⟨10, 10⟩⟩
    viewportZoom := 5
    prefetchQueue := [⟨"temperature", ⟨-9, -9, 9, 9⟩, REGIONAL⟩]
    prefetchInProgress := true
    tileCache := [] }

/-- C6 counterexample: with the consumer already running,
`queueTilePrefetch` discards the task that was already queued (the claim
says queued tasks are not discarded) and enqueues a task for the active
hurricane layer (the claim says exactly one task per active TILE-BACKED
layer). -/
theorem C6_prefetch_counterexample :
    (queueTilePrefetch 0 c6State).prefetchQueue
      = [⟨"temperature", ⟨-2, -2, 12, 12⟩, REGIONAL⟩,
         ⟨"hurricane", ⟨-2, -2, 12, 12⟩, REGIONAL⟩] ∧
    (⟨"temperature", ⟨-9, -9, 9, 9⟩, REGIONAL⟩ : PrefetchTask)
        ∉ (queueTilePrefetch 0 c6State).prefetchQueue ∧
    ¬ (∀ t ∈ (queueTilePrefetch 0 c6State).prefetchQueue,
        t.layerId ∈ tileBackedLayers) := by
  have h : (queueTilePrefetch 0 c6State).prefetchQueue
      = [⟨"temperature", ⟨-2, -2, 12, 12⟩, REGIONAL⟩,
         ⟨"hurricane", ⟨-2, -2, 12, 12⟩, REGIONAL⟩] := by
    simp [queueTilePrefetch, queueTilePrefetchEnqueue, c6State,
      extendBounds, getZoomCategory, zoomLevels]
    norm_num
  refine ⟨h, ?_, ?_⟩
  · rw [h]
    intro hmem
    rcases List.mem_cons.mp hmem with h1 | h2
    · have : (-9 : ℚ) = -2 := congrArg (fun t => t.bounds.west) h1
      norm_num at this
    · rcases List.mem_cons.mp h2 with h3 | h4
      · have : "temperature" = "hurricane" :=
          congrArg (fun t => t.layerId) h3
        simp at this
      · simp at h4
  · rw [h]
    intro hall
    have := hall ⟨"hurricane", ⟨-2, -2, 12, 12⟩, REGIONAL⟩ (by simp)
    simp [tileBackedLayers] at this

/-- The prefetch consumer only touches the queue, the progress flag and
the tile cache: the layer state and viewport are untouched. -/
theorem processPrefetchQueue_fields (now : ℚ) (s : ClientState) :
    (processPrefetchQueue now s).1.weatherLayers = s.weatherLayers ∧
    (processPrefetchQueue now s).1.activeWeatherLayers
      = s.activeWeatherLayers ∧
    (processPrefetchQueue now s).1.mapLayerVisibility
      = s.mapLayerVisibility ∧
    (processPrefetchQueue now s).1.mapZoom = s.mapZoom ∧
    (processPrefetchQueue now s).1.viewportBounds = s.viewportBounds ∧
    (processPrefetchQueue now s).1.viewportZoom = s.viewportZoom := by
  have main : ∀ (q : List PrefetchTask) (s : ClientState),
      s.prefetchQueue = q →
      (processPrefetchQueue now s).1.weatherLayers = s.weatherLayers ∧
      (processPrefetchQueue now s).1.activeWeatherLayers
        = s.activeWeatherLayers ∧
      (processPrefetchQueue now s).1.mapLayerVisibility
        = s.mapLayerVisibility ∧
      (processPrefetchQueue now s).1.mapZoom = s.mapZoom ∧
      (processPrefetchQueue now s).1.viewportBounds = s.viewportBounds ∧
      (processPrefetchQueue now s).1.viewportZoom = s.viewportZoom := by
    intro q
    induction q with
    | nil =>
        intro s hq
        rw [processPrefetchQueue_empty now s hq]
        exact ⟨rfl, rfl, rfl, rfl, rfl, rfl⟩
    | cons item rest ih =>
        intro s hq
        rw [processPrefetchQueue_cons now s item rest hq]
        exact ih
          { s with prefetchInProgress := true, prefetchQueue := rest,
                   tileCache := (prefetchTiles now s.tileCache item).1 } rfl
  exact main s.prefetchQueue s rfl

/-- `queueTilePrefetch` only touches the queue, the progress flag and
the tile cache. -/
theorem queueTilePrefetch_fields (now : ℚ) (s : ClientState) :
    (queueTilePrefetch now s).weatherLayers = s.weatherLayers ∧
    (queueTilePrefetch now s).activeWeatherLayers
      = s.activeWeatherLayers ∧
    (queueTilePrefetch now s).mapLayerVisibility
      = s.mapLayerVisibility ∧
    (queueTilePrefetch now s).mapZoom = s.mapZoom ∧
    (queueTilePrefetch now s).viewportBounds = s.viewportBounds ∧
    (queueTilePrefetch now s).viewportZoom = s.viewportZoom := by
  have he : (queueTilePrefetchEnqueue s).weatherLayers = s.weatherLayers ∧
      (queueTilePrefetchEnqueue s).activeWeatherLayers
        = s.activeWeatherLayers ∧
      (queueTilePrefetchEnqueue s).mapLayerVisibility
        = s.mapLayerVisibility ∧
      (queueTilePrefetchEnqueue s).mapZoom = s.mapZoom ∧
      (queueTilePrefetchEnqueue s).viewportBounds = s.viewportBounds ∧
      (queueTilePrefetchEnqueue s).viewportZoom = s.viewportZoom := by
    rw [queueTilePrefetchEnqueue]
    cases hvb : s.viewportBounds with
    | none => exact ⟨rfl, rfl, rfl, rfl, hvb, rfl⟩
    | some b => exact ⟨rfl, rfl, rfl, rfl, rfl, rfl⟩
  rw [queueTilePrefetch]
  obtain ⟨a, b, c, d, e, f⟩ := he
  split
  · exact ⟨a, b, c, d, e, f⟩
  · obtain ⟨a2, b2, c2, d2, e2, f2⟩ :=
      processPrefetchQueue_fields now (queueTilePrefetchEnqueue s)
    exact ⟨a2.trans a, b2.trans b, c2.trans c, d2.trans d, e2.trans e,
      f2.trans f⟩

/-- Reading a record just written finds it. -/
theorem getRecord_setRecord_same (s : ClientState) (l : String)
    (r : LayerRecord) : getRecord (setRecord s l r) l = some r := by
  unfold getRecord setRecord
  exact assocSet_lookup s.weatherLayers l r

/-- The prefetch queueing does not change the layer records. -/
theorem getRecord_queueTilePrefetch (now : ℚ) (s : ClientState)
    (l : String) : getRecord (queueTilePrefetch now s) l = getRecord s l := by
  unfold getRecord
  rw [(queueTilePrefetch_fields now s).1]


/-- Setting map layout visibility does not change the layer records. -/
theorem getRecord_mapSetVisibility (s : ClientState) (ids : List String)
    (vis : String) (l : String) :
    getRecord (mapSetVisibility s ids vis) l = getRecord s l := rfl

/-- Dispatch behavior of `fetchLayerData` needed by the refresh theorem:
the temperature arm replaces the record with the fresh builder output
and cannot throw; a throwing arm leaves the records untouched; and a
successful arm keeps the layer record present whenever it was present
before. -/
theorem fetchLayerData_spec (now : ℚ) (s : ClientState) (layerId : String)
    (zc : ZoomCategory) :
    (layerId = "temperature" →
      getRecord (fetchLayerData now s layerId zc).1 "temperature"
        = some ⟨"visible", some "temperature", some zc,
            temperatureSublayerIds zc s.mapZoom⟩ ∧
      (fetchLayerData now s layerId zc).2 = none) ∧
    ((fetchLayerData now s layerId zc).2 ≠ none →
      (fetchLayerData now s layerId zc).1.weatherLayers
        = s.weatherLayers) ∧
    (∀ rec0, getRecord s layerId = some rec0 →
      (fetchLayerData now s layerId zc).2 = none →
      ∃ rec1, getRecord (fetchLayerData now s layerId zc).1 layerId
        = some rec1) := by
  by_cases h0 : layerId = ""
  · subst h0
    exact ⟨fun h => by simp at h, fun hne => absurd rfl hne,
      fun rec0 hrec _ => ⟨rec0, hrec⟩⟩
  · by_cases h1 : layerId = "temperature"
    · subst h1
      have hrec : getRecord (fetchLayerData now s "temperature" zc).1
          "temperature" = some ⟨"visible", some "temperature", some zc,
            temperatureSublayerIds zc s.mapZoom⟩ := by
        rw [fetchLayerData]
        simp only [String.reduceEq, reduceIte]
        split
        · rw [getRecord_queueTilePrefetch]
          exact getRecord_setRecord_same _ _ _
        · exact getRecord_setRecord_same _ _ _
      have hn : (fetchLayerData now s "temperature" zc).2 = none := by
        rw [fetchLayerData]
        simp only [String.reduceEq, reduceIte]
        split <;> rfl
      exact ⟨fun _ => ⟨hrec, hn⟩, fun hne => absurd hn hne,
        fun rec0 _ _ => ⟨_, hrec⟩⟩
    · by_cases h2 : layerId = "precipitation"
      · subst h2
        have hrec : getRecord (fetchLayerData now s "precipitation" zc).1
            "precipitation" = some ⟨"visible", some "precipitation", none,
              ["precipitation-layer"]⟩ := by
          rw [fetchLayerData]
          simp only [String.reduceEq, reduceIte]
          split
          · rw [getRecord_queueTilePrefetch]
            exact getRecord_setRecord_same _ _ _
          · exact getRecord_setRecord_same _ _ _
        have hn : (fetchLayerData now s "precipitation" zc).2 = none := by
          rw [fetchLayerData]
          simp only [String.reduceEq, reduceIte]
          split <;> rfl
        exact ⟨fun h => by simp at h, fun hne => absurd hn hne,
          fun rec0 _ _ => ⟨_, hrec⟩⟩
      · by_cases h3 : layerId = "wind"
        · subst h3
          have hrec : getRecord (fetchLayerData now s "wind" zc).1
              "wind" = some ⟨"visible", some "wind", none,
                ["wind-layer"]⟩ := by
            rw [fetchLayerData]
            simp only [String.reduceEq, reduceIte]
            split
            · rw [getRecord_queueTilePrefetch]
              exact getRecord_setRecord_same _ _ _
            · exact getRecord_setRecord_same _ _ _
          have hn : (fetchLayerData now s "wind" zc).2 = none := by
            rw [fetchLayerData]
            simp only [String.reduceEq, reduceIte]
            split <;> rfl
          exact ⟨fun h => by simp at h, fun hne => absurd hn hne,
            fun rec0 _ _ => ⟨_, hrec⟩⟩
        · by_cases h4 : layerId = "cloud"
          · subst h4
            have hrec : getRecord (fetchLayerData now s "cloud" zc).1
                "cloud" = some ⟨"visible", some "cloud", none,
                  ["cloud-layer"]⟩ := by
              rw [fetchLayerData]
              simp only [String.reduceEq, reduceIte]
              split
              · rw [getRecord_queueTilePrefetch]
                exact getRecord_setRecord_same _ _ _
              · exact getRecord_setRecord_same _ _ _
            have hn : (fetchLayerData now s "cloud" zc).2 = none := by
              rw [fetchLayerData]
              simp only [String.reduceEq, reduceIte]
              split <;> rfl
            exact ⟨fun h => by simp at h, fun hne => absurd hn hne,
              fun rec0 _ _ => ⟨_, hrec⟩⟩
          · by_cases h5 : layerId = "cities"
            · subst h5
              have hn : (fetchLayerData now s "cities" zc).2 = none := by
                rw [fetchLayerData]
                simp only [String.reduceEq, reduceIte]
                split <;> rfl
              refine ⟨fun h => by simp at h, fun hne => absurd hn hne, ?_⟩
              intro rec0 hrec0 _
              have hc : getRecord (fetchCitiesLayer (setFlag s "cities"
                  true)) "cities"
                  = some { rec0 with visibility := "visible" } := by
                rw [fetchCitiesLayer]
                have hg : getRecord (setFlag s "cities" true) "cities"
                    = some rec0 := hrec0
                rw [hg]
                exact getRecord_setRecord_same _ _ _
              rw [fetchLayerData]
              simp only [String.reduceEq, reduceIte]
              split
              · rw [getRecord_queueTilePrefetch]
                exact ⟨_, hc⟩
              · exact ⟨_, hc⟩
            · by_cases h6 : layerId = "hurricane" ∨ layerId = "wildfire"
                  ∨ layerId = "disaster"
              · have hn : (fetchLayerData now s layerId zc).2 = none := by
                  rw [fetchLayerData]
                  simp only [if_neg h0, if_neg h1, if_neg h2, if_neg h3,
                    if_neg h4, if_neg h5, if_pos h6]
                  split <;> rfl
                refine ⟨fun h => absurd h h1, fun hne => absurd hn hne, ?_⟩
                intro rec0 hrec0 _
                rw [fetchLayerData]
                simp only [if_neg h0, if_neg h1, if_neg h2, if_neg h3,
                  if_neg h4, if_neg h5, if_pos h6]
                split
                · rw [getRecord_queueTilePrefetch]
                  exact ⟨_, hrec0⟩
                · exact ⟨_, hrec0⟩
              · by_cases h7 : layerId = "forecastTemp"
                    ∨ layerId = "forecastPrecip" ∨ layerId = "forecastWind"
                · have he : fetchLayerData now s layerId zc
                      = (setFlag s layerId true,
                         some "TypeError: createForecastLayer is not a function") := by
                    rw [fetchLayerData]
                    simp only [if_neg h0, if_neg h1, if_neg h2, if_neg h3,
                      if_neg h4, if_neg h5, if_neg h6, if_pos h7]
                  refine ⟨fun h => absurd h h1, ?_, ?_⟩
                  · intro _
                    rw [he]
                    rfl
                  · intro rec0 hrec0 hnone
                    rw [he] at hnone
                    simp at hnone
                · have hn : (fetchLayerData now s layerId zc).2 = none := by
                    rw [fetchLayerData]
                    simp only [if_neg h0, if_neg h1, if_neg h2, if_neg h3,
                      if_neg h4, if_neg h5, if_neg h6, if_neg h7]
                    split <;> rfl
                  refine ⟨fun h => absurd h h1, fun hne => absurd hn hne, ?_⟩
                  intro rec0 hrec0 _
                  rw [fetchLayerData]
                  simp only [if_neg h0, if_neg h1, if_neg h2, if_neg h3,
                    if_neg h4, if_neg h5, if_neg h6, if_neg h7]
                  split
                  · rw [getRecord_queueTilePrefetch]
                    exact ⟨_, hrec0⟩
                  · exact ⟨_, hrec0⟩

/-- C8 (amended): a refresh of an inactive layer is a no-op — the
type-specific builder is re-invoked and the sublayer set replaced only
for active layers — and in every case the prior visibility flag of the
layer record is preserved (a hidden layer stays hidden, a visible one
stays visible). For an active temperature layer the record sublayers are
replaced by the output of the category-specific builder and the record
tracks the new category. -/
theorem C8_refresh_preserves_visibility (now : ℚ) (s : ClientState)
    (layerId : String) (zc : ZoomCategory) :
    (getFlag s layerId = false → refreshLayer now s layerId zc = (s, none)) ∧
    (∀ rec0, getRecord s layerId = some rec0 →
      ∃ rec1, getRecord (refreshLayer now s layerId zc).1 layerId
          = some rec1 ∧ rec1.visibility = rec0.visibility) ∧
    (getFlag s "temperature" = true →
      ((getRecord (refreshLayer now s "temperature" zc).1 "temperature").map
          (fun r => r.layers))
        = some (temperatureSublayerIds zc s.mapZoom) ∧
      ((getRecord (refreshLayer now s "temperature" zc).1 "temperature").map
          (fun r => r.zoomCategory)) = some (some zc)) := by
  refine ⟨?_, ?_, ?_⟩
  · intro hf
    rw [refreshLayer, if_pos hf]
  · intro rec0 hrec0
    by_cases hf : getFlag s layerId = false
    · rw [refreshLayer, if_pos hf]
      exact ⟨rec0, hrec0, rfl⟩
    · rw [refreshLayer, if_neg hf]
      have hcv : (((getRecord s layerId).map (fun r => r.visibility))).getD
          "visible" = rec0.visibility := by
        rw [hrec0]
        rfl
      rcases hfd : fetchLayerData now s layerId zc with ⟨s1, err⟩
      cases err with
      | some e =>
          have hne : (fetchLayerData now s layerId zc).2 ≠ none := by
            rw [hfd]
            simp
          have hw : (fetchLayerData now s layerId zc).1.weatherLayers
              = s.weatherLayers := (fetchLayerData_spec now s layerId zc).2.1 hne
          rw [hfd] at hw
          simp only [hfd]
          refine ⟨rec0, ?_, rfl⟩
          show assocLookup s1.weatherLayers layerId = some rec0
          rw [hw]
          exact hrec0
      | none =>
          obtain ⟨rec1, hrec1⟩ := (fetchLayerData_spec now s layerId zc).2.2
            rec0 hrec0 (by rw [hfd])
          rw [hfd] at hrec1
          simp only [hfd]
          rw [hcv, hrec1]
          refine ⟨{ rec1 with visibility := rec0.visibility }, ?_, rfl⟩
          show getRecord (mapSetVisibility (setRecord s1 layerId
            { rec1 with visibility := rec0.visibility }) rec1.layers
            rec0.visibility) layerId = _
          exact getRecord_setRecord_same _ _ _
  · intro ht
    have hf : ¬(getFlag s "temperature" = false) := by
      rw [ht]
      simp
    rw [refreshLayer, if_neg hf]
    obtain ⟨hrec, hn⟩ := (fetchLayerData_spec now s "temperature" zc).1 rfl
    rcases hfd : fetchLayerData now s "temperature" zc with ⟨s1, err⟩
    rw [hfd] at hrec hn
    cases hn
    simp only [hfd]
    rw [hrec]
    constructor
    · show ((getRecord (mapSetVisibility (setRecord s1 "temperature" _) _ _)
        "temperature").map (fun r => r.layers)) = _
      rw [getRecord_mapSetVisibility, getRecord_setRecord_same]
      rfl
    · show ((getRecord (mapSetVisibility (setRecord s1 "temperature" _) _ _)
        "temperature").map (fun r => r.zoomCategory)) = _
      rw [getRecord_mapSetVisibility, getRecord_setRecord_same]
      rfl

/-- A state with an active temperature layer whose record is hidden and
still carries the GLOBAL sublayers. -/
def c8State : ClientState :=
  { activeWeatherLayers := [("temperature", true)]
    weatherLayers := [("temperature",
      ⟨"none", some "temperature", some GLOBAL,
       ["temperature-global-layer", "climate-zones-lines",
        "climate-zones-labels"]⟩)]
    mapLayerVisibility := []
    mapZoom := 5
    viewportBounds := none
    viewportZoom := 5
    prefetchQueue := []
    prefetchInProgress := false
    tileCache := [] }

/-- The same state with the temperature layer inactive, as `hideLayer`
leaves it. -/
def c8HiddenState : ClientState :=
  { c8State with activeWeatherLayers := [("temperature", false)] }

/-- Concrete instantiation of `C8_refresh_preserves_visibility`: a
refresh of the inactive state is a no-op; a refresh of the active-but-
hidden record rebuilds it at REGIONAL while the visibility stays
hidden. -/
theorem C8_refresh_preserves_visibility_witness :
    refreshLayer 0 c8HiddenState "temperature" REGIONAL
      = (c8HiddenState, none) ∧
    (∃ rec1, getRecord (refreshLayer 0 c8State "temperature" REGIONAL).1
        "temperature" = some rec1 ∧ rec1.visibility = "none") ∧
    ((getRecord (refreshLayer 0 c8State "temperature" REGIONAL).1
        "temperature").map (fun r => r.layers))
      = some (temperatureSublayerIds REGIONAL c8State.mapZoom) :=
  ⟨(C8_refresh_preserves_visibility 0 c8HiddenState "temperature"
      REGIONAL).1 rfl,
   (C8_refresh_preserves_visibility 0 c8State "temperature" REGIONAL).2.1
     ⟨"none", some "temperature", some GLOBAL,
      ["temperature-global-layer", "climate-zones-lines",
       "climate-zones-labels"]⟩ rfl,
   ((C8_refresh_preserves_visibility 0 c8State "temperature"
      REGIONAL).2.2 rfl).1⟩

/-- C8 counterexample: at the hidden (inactive) temperature layer the
claim as stated fails — the refresh at the new REGIONAL category does
NOT re-invoke the builder or replace the sublayer set: it is a no-op,
the record keeps the GLOBAL sublayers, which differ from the REGIONAL
builder output. -/
theorem C8_refresh_counterexample :
    refreshLayer 0 c8HiddenState "temperature" REGIONAL
      = (c8HiddenState, none) ∧
    ((getRecord c8HiddenState "temperature").map (fun r => r.layers))
      = some ["temperature-global-layer", "climate-zones-lines",
              "climate-zones-labels"] ∧
    temperatureSublayerIds REGIONAL c8HiddenState.mapZoom
      = ["temperature-regional-layer"] ∧
    (["temperature-global-layer", "climate-zones-lines",
      "climate-zones-labels"] : List String)
      ≠ ["temperature-regional-layer"] := by
  refine ⟨?_, rfl, rfl, by simp⟩
  rw [refreshLayer,
    if_pos (show getFlag c8HiddenState "temperature" = false from rfl)]

/-! ## Cities co-activation (C5) -/

/-- The state right after `initWeatherControls` (lines 177-179): both
flags present and false, nothing created yet, viewport not captured. -/
def initialClientState : ClientState :=
  { activeWeatherLayers := [("temperature", false), ("cities", false)]
    weatherLayers := []
    mapLayerVisibility := []
    mapZoom := 2
    viewportBounds := none
    viewportZoom := 0
    prefetchQueue := []
    prefetchInProgress := false
    tileCache := [] }

/-- C5: after `showLayer(temperature)` the cities active flag is true
and after `hideLayer(temperature)` it is false, as the claim states; but
a direct `toggleLayer(cities)` DOES change the cities active flag — the
flag flip at the top of `toggleLayer` (line 391) runs before the
cities early-return (lines 418-421), contradicting the claim (and the
code comment that direct toggling of city labels is not allowed). -/
theorem C5_cities_toggle_code_bug :
    getFlag (showLayer 0 initialClientState "temperature").1 "cities"
      = true ∧
    getFlag (hideLayer (showLayer 0 initialClientState "temperature").1
      "temperature") "cities" = false ∧
    getFlag (toggleLayer 0 (showLayer 0 initialClientState "temperature").1
      "cities") "cities" = false := by
  refine ⟨?_, ?_, ?_⟩ <;> rfl

/-- Concrete instantiation of the length conjunct of
`C9_wildfire_normalizer` at the padded CSV, its hypothesis discharged by
the theorem's own evaluation of that input. -/
theorem C9_wildfire_normalizer_witness :
    ([sampleWildfireRecord (fun _ => 0) (fun _ => "id")].length)
      = (((jsSplitChar '\n' sampleWildfireCsvBlanks).drop 1).filter
          (fun line => jsTrim line != "")).length :=
  (C9_wildfire_normalizer (fun _ => 0) (fun _ => "id")).2.2
    sampleWildfireCsvBlanks [sampleWildfireRecord (fun _ => 0) (fun _ => "id")]
    (C9_wildfire_normalizer (fun _ => 0) (fun _ => "id")).2.1

end Godview
